import Mathlib

/-!
Verification of the LSP protocol data-model and wire-codec repository.

The repository binds typed Language Server Protocol structures to their JSON
wire form.  The byte-level JSON encoder and decoder pair is an external
collaborator, so the embedding works over a JSON value tree: `Json` below.
`Json.render` reproduces the exact byte output of the Go `encoding/json`
marshaller on such a tree (compact form, declaration-order keys, HTML-style
escaping), so byte-for-byte statements about marshalled output are stated
through it.

Structures whose Go definitions sit in `window.go` are translated directly.
The remaining structure definitions are exercised only through the table-driven
round-trip tests of the repository; those are modelled from the spec and
pinned by the concrete wire strings the tests assert.

Numbers: the wire type of numeric enumerations is Go `float64`; the code never
does float arithmetic on them (only equality, ordering and decimal
formatting), so they are embedded as exact rationals.
-/

/-- A JSON value tree, the interface between this model and the byte-level
codec collaborator. -/
inductive Json where
  | null
  | bool (b : Bool)
  | num (q : ℚ)
  | str (s : String)
  | arr (elems : List Json)
  | obj (fields : List (String × Json))

/-- First-match key lookup among the fields of a JSON object. -/
def jlookup (key : String) : List (String × Json) → Option Json
  | [] => none
  | (k, v) :: rest => if k = key then some v else jlookup key rest

/-- Decimal digits of the fractional part `rem / den`, fuel-bounded; on the
dyadic rationals that Go `float64` values denote the expansion is finite and
the fuel is never exhausted. -/
def fracDigits : Nat → Nat → Nat → String
  | 0, _, _ => ""
  | _ + 1, 0, _ => ""
  | fuel + 1, rem, den =>
    String.singleton (Nat.digitChar (rem * 10 / den)) ++ fracDigits fuel (rem * 10 % den) den

/-- Decimal rendering of a number, as Go `strconv.FormatFloat(f, 102, -10, 64)`
renders an exactly-representable value: optional sign, integer part, and the
fractional digits only when nonzero. -/
def formatGoFloat (q : ℚ) : String :=
  let sign := if q < 0 then "-" else ""
  let n := q.num.natAbs
  let ip := n / q.den
  let rem := n % q.den
  if rem = 0 then sign ++ Nat.repr ip
  else sign ++ Nat.repr ip ++ "." ++ fracDigits 1200 rem q.den

/-- Escaping of one character inside a JSON string, as Go `encoding/json`
does it: quote, backslash, the common control escapes, HTML-relevant
characters to unicode escapes, other control characters to unicode escapes. -/
def escapeChar (c : Char) : String :=
  if c = '"' then "\\\""
  else if c = '\\' then "\\\\"
  else if c = '\n' then "\\n"
  else if c = '\r' then "\\r"
  else if c = '\t' then "\\t"
  else if c = '<' then "\\u003c"
  else if c = '>' then "\\u003e"
  else if c = '&' then "\\u0026"
  else if c.toNat < 32 then
    "\\u00" ++ String.singleton (Nat.digitChar (c.toNat / 16))
      ++ String.singleton (Nat.digitChar (c.toNat % 16))
  else String.singleton c

/-- A JSON string literal: quoted, characters escaped. -/
def renderJsonString (s : String) : String :=
  "\"" ++ String.join (s.data.map escapeChar) ++ "\""

mutual

/-- Compact byte rendering of a JSON tree, matching Go `encoding/json`
output: no whitespace, fields in order. -/
def Json.render : Json → String
  | .null => "null"
  | .bool true => "true"
  | .bool false => "false"
  | .num q => formatGoFloat q
  | .str s => renderJsonString s
  | .arr js => "[" ++ Json.renderArr js ++ "]"
  | .obj kvs => "\x7b" ++ Json.renderObj kvs ++ "\x7d"

/-- Comma-separated rendering of array elements. -/
def Json.renderArr : List Json → String
  | [] => ""
  | [j] => Json.render j
  | j :: js => Json.render j ++ "," ++ Json.renderArr js

/-- Comma-separated rendering of object fields as key:value. -/
def Json.renderObj : List (String × Json) → String
  | [] => ""
  | [(k, v)] => renderJsonString k ++ ":" ++ Json.render v
  | (k, v) :: kvs => renderJsonString k ++ ":" ++ Json.render v ++ "," ++ Json.renderObj kvs

end

/-! ### Decode primitives, with Go `encoding/json` field semantics:
a missing or null key leaves the target field at its zero value, a key of the
wrong JSON kind is a decode error. -/

/-- Read a string field: absent or null gives the zero string, a non-string
value is a decode error. -/
def getStr (kvs : List (String × Json)) (key : String) : Except String String :=
  match jlookup key kvs with
  | none => .ok ""
  | some .null => .ok ""
  | some (.str s) => .ok s
  | some _ => .error (key ++ ": expected string")

/-- Read a boolean field: absent or null gives false, a non-boolean value is a
decode error. -/
def getBool (kvs : List (String × Json)) (key : String) : Except String Bool :=
  match jlookup key kvs with
  | none => .ok false
  | some .null => .ok false
  | some (.bool b) => .ok b
  | some _ => .error (key ++ ": expected boolean")

/-- Read a numeric field: absent or null gives zero, a non-numeric value is a
decode error. -/
def getNum (kvs : List (String × Json)) (key : String) : Except String ℚ :=
  match jlookup key kvs with
  | none => .ok 0
  | some .null => .ok 0
  | some (.num q) => .ok q
  | some _ => .error (key ++ ": expected number")

/-- Read an optional sub-structure field (a Go pointer field): absent or null
gives none, otherwise the sub-decoder runs. -/
def getOpt (kvs : List (String × Json)) (key : String)
    (dec : Json → Except String α) : Except String (Option α) :=
  match jlookup key kvs with
  | none => .ok none
  | some .null => .ok none
  | some j => do
    let a ← dec j
    .ok (some a)

/-- Decode every element of a JSON array, failing on the first element error. -/
def decodeList (dec : Json → Except String α) : List Json → Except String (List α)
  | [] => .ok []
  | j :: js => do
    let a ← dec j
    let as ← decodeList dec js
    .ok (a :: as)

/-- Read a list field (a Go slice field): absent or null gives the empty list,
an array decodes elementwise, anything else is a decode error. -/
def getList (kvs : List (String × Json)) (key : String)
    (dec : Json → Except String α) : Except String (List α) :=
  match jlookup key kvs with
  | none => .ok []
  | some .null => .ok []
  | some (.arr js) => decodeList dec js
  | some _ => .error (key ++ ": expected array")

/-! ### Encode primitives: declaration-order field lists, `omitempty`
fields dropped at their zero value. -/

/-- A required string field: always emitted. -/
def addStr (key s : String) : List (String × Json) := [(key, Json.str s)]

/-- An `omitempty` string field: dropped when empty. -/
def addStrOpt (key s : String) : List (String × Json) :=
  if s = "" then [] else [(key, Json.str s)]

/-- An `omitempty` boolean field: dropped when false. -/
def addBoolOpt (key : String) (b : Bool) : List (String × Json) :=
  if b then [(key, Json.bool b)] else []

/-- A required numeric field: always emitted. -/
def addNum (key : String) (q : ℚ) : List (String × Json) := [(key, Json.num q)]

/-- An `omitempty` numeric field: dropped when zero. -/
def addNumOpt (key : String) (q : ℚ) : List (String × Json) :=
  if q = 0 then [] else [(key, Json.num q)]

/-- An optional sub-structure field (a Go `omitempty` pointer): dropped when
absent. -/
def addOpt (key : String) (enc : α → Json) : Option α → List (String × Json)
  | none => []
  | some a => [(key, enc a)]

/-! ### window.go: MessageType and the show/log message structures -/

/-- MessageType, the severity of a window message; wire type Go `float64`,
embedded as an exact rational. -/
abbrev MessageType := ℚ

/-- An error message. -/
def MessageTypeError : MessageType := 1

/-- A warning message. -/
def MessageTypeWarning : MessageType := 2

/-- An information message. -/
def MessageTypeInfo : MessageType := 3

/-- A log message. -/
def MessageTypeLog : MessageType := 4

/-- The fmt.Stringer rendering of a MessageType: the four defined members map
to their names, every other value falls back to its decimal literal. -/
def MessageType.string (m : MessageType) : String :=
  if m = MessageTypeError then "error"
  else if m = MessageTypeWarning then "warning"
  else if m = MessageTypeInfo then "info"
  else if m = MessageTypeLog then "log"
  else formatGoFloat m

/-- Enabled reports whether the level is enabled: the Go body is
level greater than zero and m at least level. -/
def MessageType.enabled (m level : MessageType) : Bool :=
  decide (0 < level) && decide (m ≥ level)

/-- The name-to-member table of MessageTypes. -/
def messageTypeMap : List (String × MessageType) :=
  [("error", MessageTypeError), ("warning", MessageTypeWarning),
   ("info", MessageTypeInfo), ("log", MessageTypeLog)]

/-- ToMessageType converts a level name to the MessageType, zero when the
name is unknown. -/
def ToMessageType (level : String) : MessageType :=
  match messageTypeMap.lookup level with
  | some mt => mt
  | none => 0

/-- Params of the ShowMessage notification: a required message and a required
type, both without omitempty. -/
structure ShowMessageParams where
  message : String
  type : MessageType
deriving DecidableEq

/-- Wire fields of ShowMessageParams, in declaration order. -/
def encodeShowMessageParamsFields (p : ShowMessageParams) : List (String × Json) :=
  addStr "message" p.message ++ addNum "type" p.type

/-- Marshal ShowMessageParams. -/
def encodeShowMessageParams (p : ShowMessageParams) : Json :=
  .obj (encodeShowMessageParamsFields p)

/-- Unmarshal ShowMessageParams. -/
def decodeShowMessageParams : Json → Except String ShowMessageParams
  | .obj kvs => do
    let m ← getStr kvs "message"
    let t ← getNum kvs "type"
    .ok ⟨m, t⟩
  | _ => .error "ShowMessageParams: expected object"

/-! ### Protocol structures exercised by the repository's table-driven tests.
Their Go definitions are not part of the sources here, only their tests are,
so each is modelled from the spec and pinned by the wire strings the tests
assert. -/

/-- Modelled from the spec: ClientInfo (name and version of a client), whose
Go definition is absent from the sources; a required name field and an
omitempty version field, as pinned by testClientInfo's two wire strings. -/
structure ClientInfo where
  name : String
  version : String
deriving DecidableEq

/-- Wire fields of ClientInfo: name always, version only when nonempty. -/
def encodeClientInfoFields (c : ClientInfo) : List (String × Json) :=
  addStr "name" c.name ++ addStrOpt "version" c.version

/-- Marshal ClientInfo. -/
def encodeClientInfo (c : ClientInfo) : Json :=
  .obj (encodeClientInfoFields c)

/-- Unmarshal ClientInfo. -/
def decodeClientInfo : Json → Except String ClientInfo
  | .obj kvs => do
    let n ← getStr kvs "name"
    let v ← getStr kvs "version"
    .ok ⟨n, v⟩
  | _ => .error "ClientInfo: expected object"

/-- Modelled from the spec: WorkspaceFolder, whose Go definition is absent
from the sources; a required uri string and a required name, in that wire
order, as pinned by testWorkspaceFolders. -/
structure WorkspaceFolder where
  uri : String
  name : String
deriving DecidableEq

/-- Marshal one WorkspaceFolder: uri then name, both required. -/
def encodeWorkspaceFolder (f : WorkspaceFolder) : Json :=
  .obj [("uri", Json.str f.uri), ("name", Json.str f.name)]

/-- Unmarshal one WorkspaceFolder. -/
def decodeWorkspaceFolder : Json → Except String WorkspaceFolder
  | .obj kvs => do
    let u ← getStr kvs "uri"
    let n ← getStr kvs "name"
    .ok ⟨u, n⟩
  | _ => .error "WorkspaceFolder: expected object"

/-- WorkspaceFolders is the ordered list of folders. -/
abbrev WorkspaceFolders := List WorkspaceFolder

/-- Marshal a folder list as a JSON array in order. -/
def encodeWorkspaceFolders (ws : WorkspaceFolders) : Json :=
  .arr (ws.map encodeWorkspaceFolder)

/-- Unmarshal a folder list. -/
def decodeWorkspaceFolders : Json → Except String WorkspaceFolders
  | .arr js => decodeList decodeWorkspaceFolder js
  | .null => .ok []
  | _ => .error "WorkspaceFolders: expected array"

/-- TraceValue, the trace verbosity: a string-valued enumeration whose closed
member set is off, messages and verbose. -/
abbrev TraceValue := String

/-- Trace disabled. -/
def TraceOff : TraceValue := "off"

/-- Trace messages only. -/
def TraceMessages : TraceValue := "messages"

/-- Verbose tracing. -/
def TraceVerbose : TraceValue := "verbose"

/-- The closed member set of the trace-verbosity enumeration. -/
def traceValues : List TraceValue := [TraceOff, TraceMessages, TraceVerbose]

/-- Modelled from the spec: LogTraceParams (params of the LogTrace
notification), whose Go definition is absent from the sources; a required
message and an omitempty verbose trace value, as pinned by
testLogTraceParams's two wire strings. -/
structure LogTraceParams where
  message : String
  verbose : TraceValue
deriving DecidableEq

/-- Wire fields of LogTraceParams. -/
def encodeLogTraceParamsFields (p : LogTraceParams) : List (String × Json) :=
  addStr "message" p.message ++ addStrOpt "verbose" p.verbose

/-- Marshal LogTraceParams. -/
def encodeLogTraceParams (p : LogTraceParams) : Json :=
  .obj (encodeLogTraceParamsFields p)

/-- Unmarshal LogTraceParams. -/
def decodeLogTraceParams : Json → Except String LogTraceParams
  | .obj kvs => do
    let m ← getStr kvs "message"
    let v ← getStr kvs "verbose"
    .ok ⟨m, v⟩
  | _ => .error "LogTraceParams: expected object"

/-- Modelled from the spec: SetTraceParams (params of the SetTrace
notification), whose Go definition is absent from the sources; one required
value field holding the trace string.  testSetTraceParams pins the decode
behaviour: unmarshalling the object whose value field holds the string
invalid is asserted error-free, with the divergence caught at the comparison
step. -/
structure SetTraceParams where
  value : TraceValue
deriving DecidableEq

/-- Wire fields of SetTraceParams. -/
def encodeSetTraceParamsFields (p : SetTraceParams) : List (String × Json) :=
  addStr "value" p.value

/-- Marshal SetTraceParams. -/
def encodeSetTraceParams (p : SetTraceParams) : Json :=
  .obj (encodeSetTraceParamsFields p)

/-- Unmarshal SetTraceParams: the value field is read as a plain string, with
no membership validation, as the repository's test asserts. -/
def decodeSetTraceParams : Json → Except String SetTraceParams
  | .obj kvs => do
    let v ← getStr kvs "value"
    .ok ⟨v⟩
  | _ => .error "SetTraceParams: expected object"

/-- Modelled from the spec: the shared work-done-progress option block that
feature options embed; one omitempty boolean. -/
structure WorkDoneProgressOptions where
  workDoneProgress : Bool
deriving DecidableEq

/-- Wire fields of the embedded work-done-progress block, flattened at the
embedding point. -/
def encodeWorkDoneProgressOptionsFields (o : WorkDoneProgressOptions) : List (String × Json) :=
  addBoolOpt "workDoneProgress" o.workDoneProgress

/-- Read the embedded work-done-progress block from the embedding object's
fields. -/
def decodeWorkDoneProgressOptionsFrom (kvs : List (String × Json)) :
    Except String WorkDoneProgressOptions := do
  let b ← getBool kvs "workDoneProgress"
  .ok ⟨b⟩

/-- Modelled from the spec: DocumentHighlightOptions embeds the
work-done-progress block and nothing else, as pinned by
testDocumentHighlightOptions. -/
structure DocumentHighlightOptions where
  workDoneProgressOptions : WorkDoneProgressOptions
deriving DecidableEq

/-- Marshal DocumentHighlightOptions: the embedded block flattened. -/
def encodeDocumentHighlightOptions (o : DocumentHighlightOptions) : Json :=
  .obj (encodeWorkDoneProgressOptionsFields o.workDoneProgressOptions)

/-- Unmarshal DocumentHighlightOptions. -/
def decodeDocumentHighlightOptions : Json → Except String DocumentHighlightOptions
  | .obj kvs => do
    let w ← decodeWorkDoneProgressOptionsFrom kvs
    .ok ⟨w⟩
  | _ => .error "DocumentHighlightOptions: expected object"

/-- Modelled from the spec: HoverOptions embeds the work-done-progress block
and nothing else, as pinned by testHoverOptions. -/
structure HoverOptions where
  workDoneProgressOptions : WorkDoneProgressOptions
deriving DecidableEq

/-- Wire fields of HoverOptions. -/
def encodeHoverOptionsFields (o : HoverOptions) : List (String × Json) :=
  encodeWorkDoneProgressOptionsFields o.workDoneProgressOptions

/-- Marshal HoverOptions. -/
def encodeHoverOptions (o : HoverOptions) : Json :=
  .obj (encodeHoverOptionsFields o)

/-- Unmarshal HoverOptions. -/
def decodeHoverOptions : Json → Except String HoverOptions
  | .obj kvs => do
    let w ← decodeWorkDoneProgressOptionsFrom kvs
    .ok ⟨w⟩
  | _ => .error "HoverOptions: expected object"

/-- Modelled from the spec: DeclarationOptions embeds the work-done-progress
block and nothing else. -/
structure DeclarationOptions where
  workDoneProgressOptions : WorkDoneProgressOptions
deriving DecidableEq

/-- Wire fields of DeclarationOptions. -/
def encodeDeclarationOptionsFields (o : DeclarationOptions) : List (String × Json) :=
  encodeWorkDoneProgressOptionsFields o.workDoneProgressOptions

/-- Modelled from the spec: SaveOptions, whose Go definition is absent from
the sources; one omitempty boolean includeText field, as pinned by
testSaveOptions and the save sub-object of testTextDocumentSyncOptions. -/
structure SaveOptions where
  includeText : Bool
deriving DecidableEq

/-- Marshal SaveOptions. -/
def encodeSaveOptions (o : SaveOptions) : Json :=
  .obj (addBoolOpt "includeText" o.includeText)

/-- Unmarshal SaveOptions. -/
def decodeSaveOptions : Json → Except String SaveOptions
  | .obj kvs => do
    let b ← getBool kvs "includeText"
    .ok ⟨b⟩
  | _ => .error "SaveOptions: expected object"

/-- Modelled from the spec: TextDocumentSyncOptions, whose Go definition is
absent from the sources; five omitempty fields in the wire order openClose,
change, willSave, willSaveWaitUntil, save, as pinned by
testTextDocumentSyncOptions. -/
structure TextDocumentSyncOptions where
  openClose : Bool
  change : ℚ
  willSave : Bool
  willSaveWaitUntil : Bool
  save : Option SaveOptions
deriving DecidableEq

/-- Marshal TextDocumentSyncOptions: every zero field omitted. -/
def encodeTextDocumentSyncOptions (o : TextDocumentSyncOptions) : Json :=
  .obj (addBoolOpt "openClose" o.openClose ++ addNumOpt "change" o.change
    ++ addBoolOpt "willSave" o.willSave ++ addBoolOpt "willSaveWaitUntil" o.willSaveWaitUntil
    ++ addOpt "save" encodeSaveOptions o.save)

/-- Unmarshal TextDocumentSyncOptions. -/
def decodeTextDocumentSyncOptions : Json → Except String TextDocumentSyncOptions
  | .obj kvs => do
    let oc ← getBool kvs "openClose"
    let ch ← getNum kvs "change"
    let ws ← getBool kvs "willSave"
    let wsw ← getBool kvs "willSaveWaitUntil"
    let sv ← getOpt kvs "save" decodeSaveOptions
    .ok ⟨oc, ch, ws, wsw, sv⟩
  | _ => .error "TextDocumentSyncOptions: expected object"

/-- Modelled from the spec: TextDocumentIdentifier, the minimal document
addressing unit; one required uri field. -/
structure TextDocumentIdentifier where
  uri : String
deriving DecidableEq

/-- Marshal TextDocumentIdentifier. -/
def encodeTextDocumentIdentifier (d : TextDocumentIdentifier) : Json :=
  .obj (addStr "uri" d.uri)

/-- Unmarshal TextDocumentIdentifier. -/
def decodeTextDocumentIdentifier : Json → Except String TextDocumentIdentifier
  | .obj kvs => do
    let u ← getStr kvs "uri"
    .ok ⟨u⟩
  | _ => .error "TextDocumentIdentifier: expected object"

/-- Modelled from the spec: DocumentFilter, one entry of a document selector;
three omitempty string fields language, scheme, pattern, as pinned by
testDocumentLinkRegistrationOptions's selector entry. -/
structure DocumentFilter where
  language : String
  scheme : String
  pattern : String
deriving DecidableEq

/-- Marshal DocumentFilter. -/
def encodeDocumentFilter (f : DocumentFilter) : Json :=
  .obj (addStrOpt "language" f.language ++ addStrOpt "scheme" f.scheme
    ++ addStrOpt "pattern" f.pattern)

/-- Unmarshal DocumentFilter. -/
def decodeDocumentFilter : Json → Except String DocumentFilter
  | .obj kvs => do
    let l ← getStr kvs "language"
    let s ← getStr kvs "scheme"
    let p ← getStr kvs "pattern"
    .ok ⟨l, s, p⟩
  | _ => .error "DocumentFilter: expected object"

/-- DocumentSelector is the list of filters scoping a registration. -/
abbrev DocumentSelector := List DocumentFilter

/-- Modelled from the spec: the shared registration-options base block holding
the document selector; the selector field carries no omitempty, an empty
selector still encodes as an empty list. -/
structure TextDocumentRegistrationOptions where
  documentSelector : DocumentSelector
deriving DecidableEq

/-- Wire fields of the registration-options base block: the documentSelector
key is always present. -/
def encodeTextDocumentRegistrationOptionsFields (o : TextDocumentRegistrationOptions) :
    List (String × Json) :=
  [("documentSelector", Json.arr (o.documentSelector.map encodeDocumentFilter))]

/-- Marshal the registration-options base block. -/
def encodeTextDocumentRegistrationOptions (o : TextDocumentRegistrationOptions) : Json :=
  .obj (encodeTextDocumentRegistrationOptionsFields o)

/-- Read the embedded registration-options base block from the embedding
object's fields. -/
def decodeTextDocumentRegistrationOptionsFrom (kvs : List (String × Json)) :
    Except String TextDocumentRegistrationOptions := do
  let sel ← getList kvs "documentSelector" decodeDocumentFilter
  .ok ⟨sel⟩

/-- Unmarshal the registration-options base block. -/
def decodeTextDocumentRegistrationOptions : Json → Except String TextDocumentRegistrationOptions
  | .obj kvs => decodeTextDocumentRegistrationOptionsFrom kvs
  | _ => .error "TextDocumentRegistrationOptions: expected object"

/-- Modelled from the spec: DocumentLinkRegistrationOptions embeds the
registration-options base block and adds an omitempty resolveProvider
boolean, as pinned by testDocumentLinkRegistrationOptions. -/
structure DocumentLinkRegistrationOptions where
  textDocumentRegistrationOptions : TextDocumentRegistrationOptions
  resolveProvider : Bool
deriving DecidableEq

/-- Wire fields of DocumentLinkRegistrationOptions: the embedded block
flattened first, then resolveProvider when set. -/
def encodeDocumentLinkRegistrationOptionsFields (o : DocumentLinkRegistrationOptions) :
    List (String × Json) :=
  encodeTextDocumentRegistrationOptionsFields o.textDocumentRegistrationOptions
    ++ addBoolOpt "resolveProvider" o.resolveProvider

/-- Marshal DocumentLinkRegistrationOptions. -/
def encodeDocumentLinkRegistrationOptions (o : DocumentLinkRegistrationOptions) : Json :=
  .obj (encodeDocumentLinkRegistrationOptionsFields o)

/-- Unmarshal DocumentLinkRegistrationOptions. -/
def decodeDocumentLinkRegistrationOptions : Json → Except String DocumentLinkRegistrationOptions
  | .obj kvs => do
    let base ← decodeTextDocumentRegistrationOptionsFrom kvs
    let rp ← getBool kvs "resolveProvider"
    .ok ⟨base, rp⟩
  | _ => .error "DocumentLinkRegistrationOptions: expected object"

/-- Modelled from the spec: a polymorphic server-capability provider field,
kept as a tagged variant: absent, a boolean flag, or a structured options
value. -/
inductive ProviderCapability (α : Type) where
  | absent
  | flag (b : Bool)
  | options (o : α)

/-- Marshal a polymorphic provider field: the absent variant is omitted, the
flag variant emits exactly the JSON boolean, the options variant emits
exactly the options object built from the given field encoder. -/
def ProviderCapability.encodeWith (enc : α → List (String × Json)) :
    ProviderCapability α → Option Json
  | .absent => none
  | .flag b => some (.bool b)
  | .options o => some (.obj (enc o))

/-! ### Round-trip helper lemmas, one per structure -/

/-- Element-wise decoding inverts element-wise encoding. -/
theorem decodeList_map (dec : Json → Except String α) (enc : α → Json)
    (h : ∀ a, dec (enc a) = .ok a) : ∀ l : List α, decodeList dec (l.map enc) = .ok l := by
  intro l
  induction l with
  | nil => rfl
  | cons a l ih => simp [decodeList, h a, ih, Bind.bind, Except.bind]

/-- ClientInfo decodes back to itself. -/
theorem rt_ClientInfo (v : ClientInfo) : decodeClientInfo (encodeClientInfo v) = .ok v := by
  obtain ⟨n, ver⟩ := v
  by_cases h : ver = "" <;>
    simp [encodeClientInfo, encodeClientInfoFields, decodeClientInfo, addStr, addStrOpt,
      getStr, jlookup, h, Bind.bind, Except.bind]

/-- WorkspaceFolder decodes back to itself. -/
theorem rt_WorkspaceFolder (v : WorkspaceFolder) :
    decodeWorkspaceFolder (encodeWorkspaceFolder v) = .ok v := rfl

/-- A WorkspaceFolders list decodes back to itself, order preserved. -/
theorem rt_WorkspaceFolders (v : WorkspaceFolders) :
    decodeWorkspaceFolders (encodeWorkspaceFolders v) = .ok v := by
  simpa [encodeWorkspaceFolders, decodeWorkspaceFolders] using
    decodeList_map decodeWorkspaceFolder encodeWorkspaceFolder rt_WorkspaceFolder v

/-- LogTraceParams decodes back to itself. -/
theorem rt_LogTraceParams (v : LogTraceParams) :
    decodeLogTraceParams (encodeLogTraceParams v) = .ok v := by
  obtain ⟨m, ver⟩ := v
  by_cases h : ver = "" <;>
    simp [encodeLogTraceParams, encodeLogTraceParamsFields, decodeLogTraceParams, addStr,
      addStrOpt, getStr, jlookup, h, Bind.bind, Except.bind]

/-- SetTraceParams decodes back to itself. -/
theorem rt_SetTraceParams (v : SetTraceParams) :
    decodeSetTraceParams (encodeSetTraceParams v) = .ok v := rfl

/-- DocumentHighlightOptions decodes back to itself. -/
theorem rt_DocumentHighlightOptions (v : DocumentHighlightOptions) :
    decodeDocumentHighlightOptions (encodeDocumentHighlightOptions v) = .ok v := by
  obtain ⟨⟨b⟩⟩ := v
  cases b <;> rfl

/-- HoverOptions decodes back to itself. -/
theorem rt_HoverOptions (v : HoverOptions) :
    decodeHoverOptions (encodeHoverOptions v) = .ok v := by
  obtain ⟨⟨b⟩⟩ := v
  cases b <;> rfl

/-- SaveOptions decodes back to itself. -/
theorem rt_SaveOptions (v : SaveOptions) :
    decodeSaveOptions (encodeSaveOptions v) = .ok v := by
  obtain ⟨b⟩ := v
  cases b <;> rfl

/-- TextDocumentSyncOptions decodes back to itself. -/
theorem rt_TextDocumentSyncOptions (v : TextDocumentSyncOptions) :
    decodeTextDocumentSyncOptions (encodeTextDocumentSyncOptions v) = .ok v := by
  obtain ⟨oc, ch, ws, wsw, sv⟩ := v
  by_cases hch : ch = 0 <;>
    cases oc <;> cases ws <;> cases wsw <;> rcases sv with _ | ⟨⟨b⟩⟩ <;> try cases b
  all_goals
    simp [encodeTextDocumentSyncOptions, decodeTextDocumentSyncOptions, addBoolOpt, addNumOpt,
      addOpt, encodeSaveOptions, decodeSaveOptions, getBool, getNum, getOpt, jlookup, hch,
      Bind.bind, Except.bind]

/-- DocumentFilter decodes back to itself. -/
theorem rt_DocumentFilter (v : DocumentFilter) :
    decodeDocumentFilter (encodeDocumentFilter v) = .ok v := by
  obtain ⟨l, s, p⟩ := v
  by_cases hl : l = "" <;> by_cases hs : s = "" <;> by_cases hp : p = "" <;>
    simp [encodeDocumentFilter, decodeDocumentFilter, addStrOpt, getStr, jlookup,
      hl, hs, hp, Bind.bind, Except.bind]

/-- The registration-options base block decodes back to itself. -/
theorem rt_TextDocumentRegistrationOptions (v : TextDocumentRegistrationOptions) :
    decodeTextDocumentRegistrationOptions (encodeTextDocumentRegistrationOptions v) = .ok v := by
  obtain ⟨sel⟩ := v
  simp [encodeTextDocumentRegistrationOptions, encodeTextDocumentRegistrationOptionsFields,
    decodeTextDocumentRegistrationOptions, decodeTextDocumentRegistrationOptionsFrom,
    getList, jlookup, decodeList_map decodeDocumentFilter encodeDocumentFilter rt_DocumentFilter,
    Bind.bind, Except.bind]

/-- DocumentLinkRegistrationOptions decodes back to itself. -/
theorem rt_DocumentLinkRegistrationOptions (v : DocumentLinkRegistrationOptions) :
    decodeDocumentLinkRegistrationOptions (encodeDocumentLinkRegistrationOptions v) = .ok v := by
  obtain ⟨⟨sel⟩, rp⟩ := v
  cases rp <;>
    simp [encodeDocumentLinkRegistrationOptions, encodeDocumentLinkRegistrationOptionsFields,
      encodeTextDocumentRegistrationOptionsFields, decodeDocumentLinkRegistrationOptions,
      decodeTextDocumentRegistrationOptionsFrom, getList, getBool, addBoolOpt, jlookup,
      decodeList_map decodeDocumentFilter encodeDocumentFilter rt_DocumentFilter,
      Bind.bind, Except.bind]

/-- ShowMessageParams decodes back to itself. -/
theorem rt_ShowMessageParams (v : ShowMessageParams) :
    decodeShowMessageParams (encodeShowMessageParams v) = .ok v := rfl

/-- TextDocumentIdentifier decodes back to itself. -/
theorem rt_TextDocumentIdentifier (v : TextDocumentIdentifier) :
    decodeTextDocumentIdentifier (encodeTextDocumentIdentifier v) = .ok v := rfl

/-! ### Claim theorems -/

/-- Claim C1, counterexample: unmarshalling the object whose value field holds
the string literal invalid, which is outside the closed trace-verbosity
member set, does not return a decode error: it succeeds, yielding the literal
unchanged. -/
theorem setTraceDecode_invalid_is_ok :
    decodeSetTraceParams (.obj [("value", Json.str "invalid")]) =
      .ok { value := "invalid" } := rfl

/-- Claim C1, amended: unmarshalling an object whose trace value field holds a
string outside the closed member set succeeds, yielding the literal as-is;
the result differs from every defined member (in particular from the verbose
variant), so the divergence is detected at the comparison step rather than by
a decode error. -/
theorem setTraceDecode_passthrough (s : String) (hs : s ∉ traceValues) :
    decodeSetTraceParams (.obj [("value", Json.str s)]) = .ok { value := s } ∧
      ∀ t ∈ traceValues, ({ value := s } : SetTraceParams) ≠ { value := t } := by
  refine ⟨rfl, fun t ht heq => ?_⟩
  cases heq
  exact hs ht

/-- Claim C1, witness: the amended statement at the concrete literal invalid. -/
theorem setTraceDecode_passthrough_witness :
    ("invalid" ∉ traceValues) ∧
      (decodeSetTraceParams (.obj [("value", Json.str "invalid")]) =
        .ok { value := "invalid" } ∧
      ∀ t ∈ traceValues, ({ value := "invalid" } : SetTraceParams) ≠ { value := t }) :=
  ⟨by decide, setTraceDecode_passthrough "invalid" (by decide)⟩

/-- Claim C2: for every structure type in this model and every value of it,
unmarshalling the marshalled form succeeds and returns the same value. -/
theorem decode_encode_roundtrip :
    (∀ v : ClientInfo, decodeClientInfo (encodeClientInfo v) = .ok v) ∧
    (∀ v : WorkspaceFolder, decodeWorkspaceFolder (encodeWorkspaceFolder v) = .ok v) ∧
    (∀ v : WorkspaceFolders, decodeWorkspaceFolders (encodeWorkspaceFolders v) = .ok v) ∧
    (∀ v : LogTraceParams, decodeLogTraceParams (encodeLogTraceParams v) = .ok v) ∧
    (∀ v : SetTraceParams, decodeSetTraceParams (encodeSetTraceParams v) = .ok v) ∧
    (∀ v : DocumentHighlightOptions,
      decodeDocumentHighlightOptions (encodeDocumentHighlightOptions v) = .ok v) ∧
    (∀ v : HoverOptions, decodeHoverOptions (encodeHoverOptions v) = .ok v) ∧
    (∀ v : SaveOptions, decodeSaveOptions (encodeSaveOptions v) = .ok v) ∧
    (∀ v : TextDocumentSyncOptions,
      decodeTextDocumentSyncOptions (encodeTextDocumentSyncOptions v) = .ok v) ∧
    (∀ v : DocumentFilter, decodeDocumentFilter (encodeDocumentFilter v) = .ok v) ∧
    (∀ v : TextDocumentRegistrationOptions,
      decodeTextDocumentRegistrationOptions (encodeTextDocumentRegistrationOptions v) = .ok v) ∧
    (∀ v : DocumentLinkRegistrationOptions,
      decodeDocumentLinkRegistrationOptions (encodeDocumentLinkRegistrationOptions v) = .ok v) ∧
    (∀ v : ShowMessageParams, decodeShowMessageParams (encodeShowMessageParams v) = .ok v) ∧
    (∀ v : TextDocumentIdentifier,
      decodeTextDocumentIdentifier (encodeTextDocumentIdentifier v) = .ok v) :=
  ⟨rt_ClientInfo, rt_WorkspaceFolder, rt_WorkspaceFolders, rt_LogTraceParams,
   rt_SetTraceParams, rt_DocumentHighlightOptions, rt_HoverOptions, rt_SaveOptions,
   rt_TextDocumentSyncOptions, rt_DocumentFilter, rt_TextDocumentRegistrationOptions,
   rt_DocumentLinkRegistrationOptions, rt_ShowMessageParams, rt_TextDocumentIdentifier⟩

/-- Claim C3: a polymorphic provider capability field marshals exactly the
variant that was set: a boolean-true flag is emitted as the JSON literal true
and never as an object, and a populated options structure is emitted as a
JSON object and never as a boolean; instantiated at the hover and declaration
provider option types. -/
theorem providerField_encodes_set_variant :
    (ProviderCapability.encodeWith encodeHoverOptionsFields (.flag true) =
      some (.bool true)) ∧
    (∀ kvs, ProviderCapability.encodeWith encodeHoverOptionsFields (.flag true) ≠
      some (.obj kvs)) ∧
    (∀ o : HoverOptions, ProviderCapability.encodeWith encodeHoverOptionsFields (.options o) =
      some (.obj (encodeHoverOptionsFields o))) ∧
    (∀ (o : HoverOptions) (b : Bool),
      ProviderCapability.encodeWith encodeHoverOptionsFields (.options o) ≠ some (.bool b)) ∧
    (ProviderCapability.encodeWith encodeDeclarationOptionsFields (.flag true) =
      some (.bool true)) ∧
    (∀ kvs, ProviderCapability.encodeWith encodeDeclarationOptionsFields (.flag true) ≠
      some (.obj kvs)) ∧
    (∀ o : DeclarationOptions,
      ProviderCapability.encodeWith encodeDeclarationOptionsFields (.options o) =
        some (.obj (encodeDeclarationOptionsFields o))) ∧
    (∀ (o : DeclarationOptions) (b : Bool),
      ProviderCapability.encodeWith encodeDeclarationOptionsFields (.options o) ≠
        some (.bool b)) := by
  refine ⟨rfl, fun kvs h => ?_, fun o => rfl, fun o b h => ?_, rfl, fun kvs h => ?_,
    fun o => rfl, fun o b h => ?_⟩ <;> simp [ProviderCapability.encodeWith] at h

/-- Claim C3, witness: the variant encoder applied at the populated hover
options value with work-done progress set emits exactly that options
object. -/
theorem providerField_encodes_set_variant_witness :
    ProviderCapability.encodeWith encodeHoverOptionsFields
      (.options { workDoneProgressOptions := { workDoneProgress := true } }) =
      some (.obj [("workDoneProgress", Json.bool true)]) := by
  have h := providerField_encodes_set_variant.2.2.1
    { workDoneProgressOptions := { workDoneProgress := true } }
  simpa using h

/-- Claim C4: marshalling ClientInfo with name testClient and version v0.0.0
produces exactly the wire bytes with both keys, and marshalling it with the
version left at its zero value produces exactly the wire bytes with the name
key only, the version key omitted. -/
theorem clientInfo_marshal_bytes :
    (Json.render (encodeClientInfo { name := "testClient", version := "v0.0.0" }) =
      "\x7b\"name\":\"testClient\",\"version\":\"v0.0.0\"\x7d") ∧
    (Json.render (encodeClientInfo { name := "testClient", version := "" }) =
      "\x7b\"name\":\"testClient\"\x7d") ∧
    (jlookup "version" (encodeClientInfoFields { name := "testClient", version := "" }) =
      none) :=
  ⟨by decide, by decide, rfl⟩

/-- Claim C5: unmarshalling a JSON array of two workspace-folder objects
yields exactly two folders in order with the URI strings preserved, for any
uri and name strings; marshalling that list rebuilds the identical JSON tree;
and on the repository's concrete folder list the marshalled bytes are exactly
the array the test asserts. -/
theorem workspaceFolders_roundtrip_bytes :
    (∀ u1 n1 u2 n2 : String,
      decodeWorkspaceFolders (.arr [.obj [("uri", Json.str u1), ("name", Json.str n1)],
          .obj [("uri", Json.str u2), ("name", Json.str n2)]]) =
        .ok [{ uri := u1, name := n1 }, { uri := u2, name := n2 }] ∧
      encodeWorkspaceFolders [{ uri := u1, name := n1 }, { uri := u2, name := n2 }] =
        .arr [.obj [("uri", Json.str u1), ("name", Json.str n1)],
          .obj [("uri", Json.str u2), ("name", Json.str n2)]]) ∧
    (Json.render (encodeWorkspaceFolders
        [{ uri := "file:///Users/zchee/go/src/go.lsp.dev/protocol", name := "protocol" },
         { uri := "file:///Users/zchee/go/src/go.lsp.dev/jsonrpc2", name := "jsonrpc2" }]) =
      "[\x7b\"uri\":\"file:///Users/zchee/go/src/go.lsp.dev/protocol\",\"name\":\"protocol\"\x7d,\x7b\"uri\":\"file:///Users/zchee/go/src/go.lsp.dev/jsonrpc2\",\"name\":\"jsonrpc2\"\x7d]") :=
  ⟨fun u1 n1 u2 n2 => ⟨rfl, rfl⟩, by decide⟩

/-- Claim C6: a registration-options structure carrying a document selector
always emits the documentSelector key, and marshalling a value whose selector
is the empty list with every other optional field at zero emits exactly the
object holding documentSelector as an empty array, never omitting the key;
shown for the registration-options base block and for
DocumentLinkRegistrationOptions. -/
theorem emptySelector_encodes_empty_array :
    (∀ (rp : Bool) (sel : DocumentSelector),
      jlookup "documentSelector"
          (encodeDocumentLinkRegistrationOptionsFields
            { textDocumentRegistrationOptions := { documentSelector := sel },
              resolveProvider := rp }) =
        some (.arr (sel.map encodeDocumentFilter))) ∧
    (∀ o : TextDocumentRegistrationOptions,
      jlookup "documentSelector" (encodeTextDocumentRegistrationOptionsFields o) =
        some (.arr (o.documentSelector.map encodeDocumentFilter))) ∧
    (encodeDocumentLinkRegistrationOptions
        { textDocumentRegistrationOptions := { documentSelector := [] },
          resolveProvider := false } =
      .obj [("documentSelector", Json.arr [])]) ∧
    (Json.render (encodeDocumentLinkRegistrationOptions
        { textDocumentRegistrationOptions := { documentSelector := [] },
          resolveProvider := false }) =
      "\x7b\"documentSelector\":[]\x7d") :=
  ⟨fun rp sel => rfl, fun o => rfl, rfl, by decide⟩

/-- Claim C7: the MessageType rendering is total: the four defined members
one to four render as error, warning, info and log, and every other value
falls back to the decimal literal of the raw numeric wire value. -/
theorem messageType_string_total_fallback :
    (MessageType.string 1 = "error") ∧
    (MessageType.string 2 = "warning") ∧
    (MessageType.string 3 = "info") ∧
    (MessageType.string 4 = "log") ∧
    (∀ m : MessageType, m ≠ MessageTypeError → m ≠ MessageTypeWarning →
      m ≠ MessageTypeInfo → m ≠ MessageTypeLog →
      MessageType.string m = formatGoFloat m) := by
  refine ⟨by decide, by decide, by decide, by decide, fun m h1 h2 h3 h4 => ?_⟩
  simp [MessageType.string, h1, h2, h3, h4]

/-- Claim C7, witness: the value five halves is none of the four members and
renders as its decimal literal. -/
theorem messageType_string_total_fallback_witness :
    MessageType.string (mkRat 5 2) = "2.5" := by
  have h := messageType_string_total_fallback.2.2.2.2 (mkRat 5 2)
    (by decide) (by decide) (by decide) (by decide)
  rw [h]
  decide

/-- Claim C8: unmarshalling an object that lacks a required key succeeds and
leaves the field at its zero value: shown for ShowMessageParams missing the
message or the type key or both, a document identifier missing uri, and the
empty object for the other structures of this model. -/
theorem missing_required_key_decodes_zero :
    (∀ s : String, decodeShowMessageParams (.obj [("message", Json.str s)]) =
      .ok { message := s, type := 0 }) ∧
    (∀ q : ℚ, decodeShowMessageParams (.obj [("type", Json.num q)]) =
      .ok { message := "", type := q }) ∧
    (decodeShowMessageParams (.obj []) = .ok { message := "", type := 0 }) ∧
    (decodeTextDocumentIdentifier (.obj []) = .ok { uri := "" }) ∧
    (decodeTextDocumentSyncOptions (.obj []) =
      .ok { openClose := false, change := 0, willSave := false,
            willSaveWaitUntil := false, save := none }) ∧
    (decodeClientInfo (.obj []) = .ok { name := "", version := "" }) ∧
    (decodeWorkspaceFolder (.obj []) = .ok { uri := "", name := "" }) ∧
    (decodeLogTraceParams (.obj []) = .ok { message := "", verbose := "" }) ∧
    (decodeSetTraceParams (.obj []) = .ok { value := "" }) :=
  ⟨fun _ => rfl, fun _ => rfl, rfl, rfl, rfl, rfl, rfl, rfl, rfl⟩

/-- Claim C9: ToMessageType maps exactly the four names to the four members,
returns zero for every other string, and is a left inverse of the member
rendering on the four defined members. -/
theorem toMessageType_spec :
    (ToMessageType "error" = MessageTypeError ∧
     ToMessageType "warning" = MessageTypeWarning ∧
     ToMessageType "info" = MessageTypeInfo ∧
     ToMessageType "log" = MessageTypeLog) ∧
    (∀ s : String, s ≠ "error" → s ≠ "warning" → s ≠ "info" → s ≠ "log" →
      ToMessageType s = 0) ∧
    (ToMessageType (MessageType.string MessageTypeError) = MessageTypeError ∧
     ToMessageType (MessageType.string MessageTypeWarning) = MessageTypeWarning ∧
     ToMessageType (MessageType.string MessageTypeInfo) = MessageTypeInfo ∧
     ToMessageType (MessageType.string MessageTypeLog) = MessageTypeLog) := by
  refine ⟨⟨by decide, by decide, by decide, by decide⟩, fun s h1 h2 h3 h4 => ?_,
    by decide, by decide, by decide, by decide⟩
  have e1 : (s == "error") = false := beq_eq_false_iff_ne.mpr h1
  have e2 : (s == "warning") = false := beq_eq_false_iff_ne.mpr h2
  have e3 : (s == "info") = false := beq_eq_false_iff_ne.mpr h3
  have e4 : (s == "log") = false := beq_eq_false_iff_ne.mpr h4
  simp [ToMessageType, messageTypeMap, List.lookup, e1, e2, e3, e4]

/-- Claim C9, witness: an unknown level name maps to the zero MessageType. -/
theorem toMessageType_spec_witness : ToMessageType "debug" = 0 :=
  toMessageType_spec.2.1 "debug" (by decide) (by decide) (by decide) (by decide)

/-- Claim C10: a message type is enabled against a level exactly when the
level is positive and at most the message type; in particular no message type
is enabled against the zero threshold. -/
theorem messageType_enabled_iff :
    (∀ m level : MessageType,
      MessageType.enabled m level = true ↔ 0 < level ∧ level ≤ m) ∧
    (∀ m : MessageType, MessageType.enabled m 0 = false) := by
  refine ⟨fun m level => ?_, fun m => rfl⟩
  simp [MessageType.enabled, ge_iff_le]
